import Mathlib

/-!
Verification development for the MultiAgent-Dapr HR workflow repository.

The repository's durable orchestrator bodies (Azure Durable Functions,
`function_app.py` in each `*_mcp` service) are deterministic-replay
coroutines: each body is re-run from the top on every turn, and every
`yield` consumes the next recorded completion (activity result, timer
fire, race outcome, sub-orchestration result) from the instance history.
We embed each body as a pure Lean function from the instance input, the
instance start time (virtual clock, in minutes), and the list of recorded
completions, to the list of scheduling decisions made so far together
with the run outcome (still pending, completed with a result, or failed).

Time model: the virtual clock starts at `start` and advances exactly when
a timer fires, to that timer's fire-at instant; activities take no
virtual time.  This is the deterministic `current_utc_datetime` model of
the durable-functions runtime.
-/

/-- JSON-like opaque payload values (Python dicts/strings/numbers/lists). -/
inductive Value where
  | null : Value
  | str (s : String) : Value
  | num (n : Int) : Value
  | list (xs : List Value) : Value
  | dict (entries : List (String × Value)) : Value
deriving Repr

/-- `d.get(k)` on a Python dict: `some v` when the key is present, `none`
when absent (Python `None`) or when the value is not a dict at all. -/
def Value.get : Value → String → Option Value
  | .dict entries, k => entries.lookup k
  | _, _ => none

/-- `d.get(k, default)`. -/
def Value.getD (v : Value) (k : String) (default : Value) : Value :=
  (v.get k).getD default

/-- `d.get(k)` with Python `None` for a missing key. -/
def Value.getNull (v : Value) (k : String) : Value :=
  v.getD k .null

/-- Whether the value is a Python dict (other values have no `.get`). -/
def Value.isDict : Value → Bool
  | .dict _ => true
  | _ => false

/-- Python `v == s` for a string literal `s` (false on non-strings). -/
def Value.eqStr (v : Value) (s : String) : Bool :=
  match v with
  | .str t => t == s
  | _ => false

/-- One recorded completion in an instance's history, in the order the
orchestrator body's suspension points consume them.  A `task_any` race of
an external event against a timer resolves to `raceEvent` (the event was
recorded first) or `raceTimer` (the deadline fired first); history order
is authoritative and replay-stable. -/
inductive Completion where
  | activityDone (result : Value) : Completion
  | timerFired : Completion
  | eventReceived (payload : Value) : Completion
  | subDone (result : Value) : Completion
  | raceEvent (payload : Value) : Completion
  | raceTimer : Completion
deriving Repr

/-- A scheduling decision made by an orchestrator body: activities called,
timers created, external events awaited, sub-orchestrations started, and
explicit cancellation of a pending timer (losing race branch). -/
inductive Decision where
  | activity (name : String) (args : Value) : Decision
  | timer (fireAt : Nat) : Decision
  | waitEvent (name : String) : Decision
  | subOrch (orchName : String) (chain : List String) (aid : String) (sla : Nat) : Decision
  | cancelTimer (fireAt : Nat) : Decision
deriving Repr

/-- Outcome of replaying a body against a history: suspended at an
unresolved await, completed with a result, or failed (Python exception /
history mismatch). -/
inductive RunOutcome where
  | pending : RunOutcome
  | done (result : Value) : RunOutcome
  | failed (msg : String) : RunOutcome
deriving Repr

/-- One virtual day in minutes. -/
def day : Nat := 24 * 60

/-- Input of `approval_flow_orchestrator`: the fields the body reads from
`input_data` (`approval_id`, `approver_chain`, `sla_hours`, default 24);
further keys of the Python dict are carried opaquely and never read, so
the recursion's `\x7b**input_data, "approver_chain": approver_chain[1:]\x7d`
is structure update of the chain field. -/
structure ApprovalInput where
  approval_id : String
  approver_chain : List String
  sla_hours : Nat
deriving Repr

/-- Rendering of the approval input dict as a payload value (as passed
wholesale to the `store_approval_request` activity). -/
def ApprovalInput.toValue (i : ApprovalInput) : Value :=
  .dict [("approval_id", .str i.approval_id),
         ("approver_chain", .list (i.approver_chain.map Value.str)),
         ("sla_hours", .num i.sla_hours)]

/-- Shallow embedding of `approval_flow_orchestrator`
(`approval_mcp/function_app.py`): store the request, notify the first
approver (`approver_chain[0]`, an IndexError on an empty chain), race an
`ApprovalResponse` external event against an SLA timer; on timeout
escalate and recurse into a sub-orchestration with the chain's tail when
more approvers remain, else record `timed_out`; on an event record the
decision and return its `decision` field as the status. -/
def approval_flow_orchestrator (input : ApprovalInput) (start : Nat)
    (hist : List Completion) : List Decision × RunOutcome :=
  let aid := input.approval_id
  let chain := input.approver_chain
  let d0 := Decision.activity ("store_approval_request") input.toValue
  match hist with
  | [] => ([d0], .pending)
  | .activityDone _ :: h1 =>
    match chain with
    | [] => ([d0], .failed ("IndexError: list index out of range"))
    | a0 :: tail =>
      let d1 := Decision.activity ("send_approval_notification")
        (.dict [("approval_id", .str aid), ("approver", .str a0)])
      match h1 with
      | [] => ([d0, d1], .pending)
      | .activityDone _ :: h2 =>
        let deadline := start + input.sla_hours * 60
        let d2 := Decision.waitEvent ("ApprovalResponse")
        let d3 := Decision.timer deadline
        match h2 with
        | [] => ([d0, d1, d2, d3], .pending)
        | .raceTimer :: h3 =>
          match tail with
          | next :: rest =>
            let d4 := Decision.activity ("escalate_to_next_approver")
              (.dict [("approval_id", .str aid), ("next_approver", .str next)])
            match h3 with
            | [] => ([d0, d1, d2, d3, d4], .pending)
            | .activityDone _ :: h4 =>
              let d5 := Decision.subOrch ("approval_flow_orchestrator")
                (next :: rest) aid input.sla_hours
              match h4 with
              | [] => ([d0, d1, d2, d3, d4, d5], .pending)
              | .subDone r :: _ => ([d0, d1, d2, d3, d4, d5], .done r)
              | _ => ([d0, d1, d2, d3, d4, d5], .failed ("history mismatch"))
            | _ => ([d0, d1, d2, d3, d4], .failed ("history mismatch"))
          | [] =>
            let d4 := Decision.activity ("record_decision")
              (.dict [("approval_id", .str aid),
                      ("decision", .str ("timed_out"))])
            match h3 with
            | [] => ([d0, d1, d2, d3, d4], .pending)
            | .activityDone _ :: _ =>
              ([d0, d1, d2, d3, d4],
               .done (.dict [("status", .str ("timed_out")),
                             ("approval_id", .str aid)]))
            | _ => ([d0, d1, d2, d3, d4], .failed ("history mismatch"))
        | .raceEvent p :: h3 =>
          let d4 := Decision.cancelTimer deadline
          if p.isDict then
            let d5 := Decision.activity ("record_decision")
              (.dict [("approval_id", .str aid),
                      ("decision", p.getD ("decision") (.str ("unknown"))),
                      ("approver", p.getNull ("approver")),
                      ("comments", p.getD ("comments") (.str ("")))])
            match h3 with
            | [] => ([d0, d1, d2, d3, d4, d5], .pending)
            | .activityDone _ :: _ =>
              match p.get ("decision") with
              | some dv =>
                ([d0, d1, d2, d3, d4, d5],
                 .done (.dict [("status", dv), ("approval_id", .str aid)]))
              | none => ([d0, d1, d2, d3, d4, d5], .failed ("KeyError: decision"))
            | _ => ([d0, d1, d2, d3, d4, d5], .failed ("history mismatch"))
          else
            ([d0, d1, d2, d3, d4], .failed ("AttributeError: result has no get"))
        | _ => ([d0, d1, d2, d3], .failed ("history mismatch"))
      | _ => ([d0, d1], .failed ("history mismatch"))
  | _ => ([d0], .failed ("history mismatch"))

/-- Parameters of one instance of the repeated `while current_utc_datetime
< expiry: poll; if terminal: (finish;) return …; create_timer(now +
interval)` loop shared by the badge, laptop, asset-return, background-check
and OneDrive orchestrators.  Each orchestrator below instantiates the
fields with the literal names, intervals and horizons of its source. -/
structure PollSpec where
  pollName : String
  pollArgs : Value
  isTerminal : Value → Bool
  finishStep : Option (String × Value)
  terminalResult : Value → Value
  interval : Nat
  timeoutResult : Value

/-- The poll-until-terminal loop body: while the virtual clock is before
`expiry`, call the poll activity; if its result is terminal, run the
optional finishing activity and complete with the terminal result;
otherwise create a timer for `now + interval` and loop after it fires.
Once the clock reaches `expiry`, complete normally with the timeout
result. -/
def pollLoop (ps : PollSpec) (expiry : Nat) (now : Nat)
    (hist : List Completion) : List Decision × RunOutcome :=
  if now < expiry then
    let dPoll := Decision.activity ps.pollName ps.pollArgs
    match hist with
    | [] => ([dPoll], .pending)
    | .activityDone st :: h1 =>
      if ps.isTerminal st then
        match ps.finishStep with
        | none => ([dPoll], .done (ps.terminalResult st))
        | some (fname, fargs) =>
          let dFin := Decision.activity fname fargs
          match h1 with
          | [] => ([dPoll, dFin], .pending)
          | .activityDone _ :: _ => ([dPoll, dFin], .done (ps.terminalResult st))
          | _ => ([dPoll, dFin], .failed ("history mismatch"))
      else
        let next := now + ps.interval
        let dT := Decision.timer next
        match h1 with
        | [] => ([dPoll, dT], .pending)
        | .timerFired :: h2 =>
          let rest := pollLoop ps expiry next h2
          (dPoll :: dT :: rest.1, rest.2)
        | _ => ([dPoll, dT], .failed ("history mismatch"))
    | _ => ([dPoll], .failed ("history mismatch"))
  else ([], .done ps.timeoutResult)
termination_by hist.length
decreasing_by simp_wf; omega

/-- Poll parameters of `badge_provision_orchestrator`
(`facilities_mcp/function_app.py`): poll `poll_badge_status` every 4
hours; on result `"printed"` run `activate_badge` and return
`\x7bbadge_id, result: "activated"\x7d`; horizon 5 days, timeout result
`\x7bbadge_id, result: "timed_out"\x7d`. -/
def badgePollSpec (badge_id : String) : PollSpec where
  pollName := "poll_badge_status"
  pollArgs := .str badge_id
  isTerminal := fun st => st.eqStr ("printed")
  finishStep := some ("activate_badge", .dict [("badge_id", .str badge_id)])
  terminalResult := fun _ =>
    .dict [("badge_id", .str badge_id), ("result", .str ("activated"))]
  interval := 4 * 60
  timeoutResult := .dict [("badge_id", .str badge_id), ("result", .str ("timed_out"))]

/-- Shallow embedding of `badge_provision_orchestrator`: request badge
printing, then poll printing status every 4 hours with a 5-day expiry. -/
def badge_provision_orchestrator (badge_id : String) (start : Nat)
    (hist : List Completion) : List Decision × RunOutcome :=
  let d0 := Decision.activity ("request_badge_printing")
    (.dict [("badge_id", .str badge_id)])
  match hist with
  | [] => ([d0], .pending)
  | .activityDone _ :: h1 =>
    let expiry := start + 5 * day
    let rest := pollLoop (badgePollSpec badge_id) expiry start h1
    (d0 :: rest.1, rest.2)
  | _ => ([d0], .failed ("history mismatch"))

/-- Poll parameters of `laptop_provision_orchestrator`
(`it_provision_mcp/function_app.py`): poll `poll_servicenow_ticket` every
6 hours; results `"fulfilled"` or `"cancelled"` are terminal and returned
as `\x7bticket_id, result: status\x7d`; horizon 10 days. -/
def laptopPollSpec (ticket_id : String) : PollSpec where
  pollName := "poll_servicenow_ticket"
  pollArgs := .str ticket_id
  isTerminal := fun st => st.eqStr ("fulfilled") || st.eqStr ("cancelled")
  finishStep := none
  terminalResult := fun st =>
    .dict [("ticket_id", .str ticket_id), ("result", st)]
  interval := 6 * 60
  timeoutResult := .dict [("ticket_id", .str ticket_id), ("result", .str ("timed_out"))]

/-- Shallow embedding of `laptop_provision_orchestrator`: poll the
ServiceNow ticket every 6 hours with a 10-day expiry (no initial
activity before the loop). -/
def laptop_provision_orchestrator (ticket_id : String) (start : Nat)
    (hist : List Completion) : List Decision × RunOutcome :=
  pollLoop (laptopPollSpec ticket_id) (start + 10 * day) start hist

/-- Poll parameters of `asset_return_orchestrator`
(`it_provision_mcp/function_app.py`): poll `poll_asset_return_status`
daily; on `"received"` run `process_returned_assets` and return
`\x7bticket_id, result: "received"\x7d`; horizon 14 days, timeout result
`"overdue"`. -/
def assetPollSpec (ticket_id : String) : PollSpec where
  pollName := "poll_asset_return_status"
  pollArgs := .str ticket_id
  isTerminal := fun st => st.eqStr ("received")
  finishStep := some ("process_returned_assets", .dict [("ticket_id", .str ticket_id)])
  terminalResult := fun _ =>
    .dict [("ticket_id", .str ticket_id), ("result", .str ("received"))]
  interval := day
  timeoutResult := .dict [("ticket_id", .str ticket_id), ("result", .str ("overdue"))]

/-- Shallow embedding of `asset_return_orchestrator`: send the shipping
label, then poll the return status daily with a 14-day expiry. -/
def asset_return_orchestrator (ticket_id : String) (start : Nat)
    (hist : List Completion) : List Decision × RunOutcome :=
  let d0 := Decision.activity ("send_shipping_label")
    (.dict [("ticket_id", .str ticket_id)])
  match hist with
  | [] => ([d0], .pending)
  | .activityDone _ :: h1 =>
    let expiry := start + 14 * day
    let rest := pollLoop (assetPollSpec ticket_id) expiry start h1
    (d0 :: rest.1, rest.2)
  | _ => ([d0], .failed ("history mismatch"))

/-- Poll parameters of `background_check_orchestrator`
(`sap_mcp/function_app.py`): poll `poll_bgv_status` every 4 hours;
results `"completed"` or `"failed"` are terminal and returned as
`\x7bcheck_id, result: status\x7d`; horizon 7 days. -/
def bgvPollSpec (check_id : String) : PollSpec where
  pollName := "poll_bgv_status"
  pollArgs := .str check_id
  isTerminal := fun st => st.eqStr ("completed") || st.eqStr ("failed")
  finishStep := none
  terminalResult := fun st =>
    .dict [("check_id", .str check_id), ("result", st)]
  interval := 4 * 60
  timeoutResult := .dict [("check_id", .str check_id), ("result", .str ("timed_out"))]

/-- Shallow embedding of `background_check_orchestrator`: poll the SAP
BGV status every 4 hours with a 7-day expiry (no initial activity). -/
def background_check_orchestrator (check_id : String) (start : Nat)
    (hist : List Completion) : List Decision × RunOutcome :=
  pollLoop (bgvPollSpec check_id) (start + 7 * day) start hist

/-- Poll parameters of `onedrive_transfer_orchestrator`
(`entra_mcp/function_app.py`): poll `poll_onedrive_transfer` every 30
minutes; result `"completed"` is terminal, returned as `\x7bupn,
transfer: "completed"\x7d`; horizon 24 hours, timeout result
`\x7bupn, transfer: "timed_out"\x7d`. -/
def onedrivePollSpec (upn : String) : PollSpec where
  pollName := "poll_onedrive_transfer"
  pollArgs := .dict [("upn", .str upn)]
  isTerminal := fun st => st.eqStr ("completed")
  finishStep := none
  terminalResult := fun _ =>
    .dict [("upn", .str upn), ("transfer", .str ("completed"))]
  interval := 30
  timeoutResult := .dict [("upn", .str upn), ("transfer", .str ("timed_out"))]

/-- Shallow embedding of `onedrive_transfer_orchestrator`: initiate the
transfer, then poll every 30 minutes with a 24-hour expiry. -/
def onedrive_transfer_orchestrator (upn : String) (start : Nat)
    (hist : List Completion) : List Decision × RunOutcome :=
  let d0 := Decision.activity ("initiate_onedrive_transfer")
    (.dict [("upn", .str upn)])
  match hist with
  | [] => ([d0], .pending)
  | .activityDone _ :: h1 =>
    let expiry := start + 24 * 60
    let rest := pollLoop (onedrivePollSpec upn) expiry start h1
    (d0 :: rest.1, rest.2)
  | _ => ([d0], .failed ("history mismatch"))

/-- Shallow embedding of `final_paycheck_orchestrator`
(`payroll_mcp/function_app.py`): calculate final amounts, request payroll
approval, race a `PayrollApproval` external event against a 48-hour
timer; on timeout return status `approval_timed_out`; on an event whose
`decision` field is not `"approved"` return status `rejected`; otherwise
schedule disbursement and return status `disbursement_scheduled`. -/
def final_paycheck_orchestrator (employee_id : String) (start : Nat)
    (hist : List Completion) : List Decision × RunOutcome :=
  let d0 := Decision.activity ("calculate_final_amounts")
    (.dict [("employee_id", .str employee_id)])
  match hist with
  | [] => ([d0], .pending)
  | .activityDone calculation :: h1 =>
    let d1 := Decision.activity ("request_payroll_approval")
      (.dict [("employee_id", .str employee_id), ("calculation", calculation)])
    match h1 with
    | [] => ([d0, d1], .pending)
    | .activityDone _ :: h2 =>
      let deadline := start + 48 * 60
      let d2 := Decision.waitEvent ("PayrollApproval")
      let d3 := Decision.timer deadline
      match h2 with
      | [] => ([d0, d1, d2, d3], .pending)
      | .raceTimer :: _ =>
        ([d0, d1, d2, d3],
         .done (.dict [("employee_id", .str employee_id),
                       ("status", .str ("approval_timed_out"))]))
      | .raceEvent p :: h3 =>
        let d4 := Decision.cancelTimer deadline
        if p.isDict then
          if (p.getNull ("decision")).eqStr ("approved") then
            let d5 := Decision.activity ("schedule_disbursement")
              (.dict [("employee_id", .str employee_id),
                      ("calculation", calculation)])
            match h3 with
            | [] => ([d0, d1, d2, d3, d4, d5], .pending)
            | .activityDone _ :: _ =>
              ([d0, d1, d2, d3, d4, d5],
               .done (.dict [("employee_id", .str employee_id),
                             ("status", .str ("disbursement_scheduled"))]))
            | _ => ([d0, d1, d2, d3, d4, d5], .failed ("history mismatch"))
          else
            ([d0, d1, d2, d3, d4],
             .done (.dict [("employee_id", .str employee_id),
                           ("status", .str ("rejected"))]))
        else
          ([d0, d1, d2, d3, d4], .failed ("AttributeError: result has no get"))
      | _ => ([d0, d1, d2, d3], .failed ("history mismatch"))
    | _ => ([d0, d1], .failed ("history mismatch"))
  | _ => ([d0], .failed ("history mismatch"))

/-- Shallow embedding of `benefits_termination_orchestrator`
(`sap_mcp/function_app.py`): send the COBRA notice, wait on a timer 44
days out, send the reminder, then race a `CobraElectionResponse`
external event against a timer a further 16 days out (day 60); on
timeout return `cobra = "election_expired"`, otherwise cancel the
deadline timer and return the election payload as the `cobra` field. -/
def benefits_termination_orchestrator (employee_id : String) (start : Nat)
    (hist : List Completion) : List Decision × RunOutcome :=
  let d0 := Decision.activity ("send_cobra_notice")
    (.dict [("employee_id", .str employee_id)])
  match hist with
  | [] => ([d0], .pending)
  | .activityDone _ :: h1 =>
    let reminder_date := start + 44 * day
    let d1 := Decision.timer reminder_date
    match h1 with
    | [] => ([d0, d1], .pending)
    | .timerFired :: h2 =>
      let d2 := Decision.activity ("send_cobra_reminder")
        (.dict [("employee_id", .str employee_id)])
      match h2 with
      | [] => ([d0, d1, d2], .pending)
      | .activityDone _ :: h3 =>
        let deadline := reminder_date + 16 * day
        let d3 := Decision.waitEvent ("CobraElectionResponse")
        let d4 := Decision.timer deadline
        match h3 with
        | [] => ([d0, d1, d2, d3, d4], .pending)
        | .raceTimer :: _ =>
          ([d0, d1, d2, d3, d4],
           .done (.dict [("employee_id", .str employee_id),
                         ("cobra", .str ("election_expired"))]))
        | .raceEvent p :: _ =>
          ([d0, d1, d2, d3, d4, Decision.cancelTimer deadline],
           .done (.dict [("employee_id", .str employee_id), ("cobra", p)]))
        | _ => ([d0, d1, d2, d3, d4], .failed ("history mismatch"))
      | _ => ([d0, d1, d2], .failed ("history mismatch"))
    | _ => ([d0, d1], .failed ("history mismatch"))
  | _ => ([d0], .failed ("history mismatch"))

/-- Number of sub-orchestrations started in a decision list. -/
def countSubOrch (ds : List Decision) : Nat :=
  ds.countP (fun d => match d with | .subOrch _ _ _ _ => true | _ => false)

/-- The approver chains of the sub-orchestrations started in a decision
list, in order. -/
def subOrchChains (ds : List Decision) : List (List String) :=
  ds.filterMap (fun d => match d with | .subOrch _ c _ _ => some c | _ => none)

/-- The proper tails of a chain, longest first: for `[a, b, c]` this is
`[[b, c], [c]]` — each element is the strict tail of the previous level,
one approver shorter. -/
def strictTails : List String → List (List String)
  | [] => []
  | [_] => []
  | _ :: b :: r => (b :: r) :: strictTails (b :: r)

/-- The whole escalation tree of `approval_flow_orchestrator` under the
scenario in which no `ApprovalResponse` event is ever delivered: every
instance's history records both activities completing, the SLA race
resolving to the timer, the post-timeout activity completing, and (when
the chain still has approvers behind the head) the sub-orchestration's
own all-timeout result.  Decisions are the parent's followed by the
child subtree's; each child starts at its parent's SLA deadline. -/
def escalationAllTimeout (aid : String) (sla : Nat) (start : Nat) :
    List String → List Decision × RunOutcome
  | [] => approval_flow_orchestrator ⟨aid, [], sla⟩ start
      [.activityDone (.str ("stored"))]
  | [a] => approval_flow_orchestrator ⟨aid, [a], sla⟩ start
      [.activityDone (.str ("stored")), .activityDone (.str ("sent")),
       .raceTimer, .activityDone (.str ("recorded"))]
  | a :: b :: r =>
      let child := escalationAllTimeout aid sla (start + sla * 60) (b :: r)
      let childResult := match child.2 with | .done v => v | _ => .null
      let parent := approval_flow_orchestrator ⟨aid, a :: b :: r, sla⟩ start
        [.activityDone (.str ("stored")), .activityDone (.str ("sent")),
         .raceTimer, .activityDone (.str ("escalated")), .subDone childResult]
      (parent.1 ++ child.1, parent.2)

/-- Checker for the poll/timer alternation shape of a loop's decision
trace starting at virtual time `now`: a poll activity, then either
nothing (suspended or terminal), the finishing activity (terminal set
hit), or a timer for exactly `now + interval` followed recursively by
the same shape. -/
def altOK (ps : PollSpec) : Nat → List Decision → Bool
  | _, [] => true
  | now, Decision.activity n _ :: rest =>
    if n == ps.pollName then
      match rest with
      | [] => true
      | [Decision.activity m _] =>
        match ps.finishStep with
        | some (fm, _) => m == fm
        | none => false
      | Decision.timer t :: rest2 =>
        t == now + ps.interval && altOK ps (now + ps.interval) rest2
      | _ => false
    else false
  | _, _ => false
termination_by _ l => l.length
decreasing_by simp_wf; omega

/-- `\x7bn:05d\x7d` zero-padding of a natural number to width 5. -/
def pad5 (n : Nat) : String :=
  let s := toString n
  String.mk (List.replicate (5 - s.length) '0') ++ s

/-- Python `hash(key) % 100000` rendered `:05d` (Python `%` on a
possibly negative hash yields the nonnegative remainder). -/
def pyFormat5 (n : Int) : String := pad5 (n % 100000).toNat

/-- `approval_id` generated by `request_approval`
(`approval_mcp/function_app.py` line 55):
`f"APR-\x7bhash(f'\x7bemployee_id\x7d\x7baction_type\x7d') % 100000:05d\x7d"`.
The interpreter's string hash is the parameter `h` (CPython's is
per-process salted); the id depends on the inputs only through the
concatenation `employee_id ++ action_type`. -/
def approval_id_of (h : String → Int) (employee_id : String)
    (action_type : String) : String :=
  "APR-" ++ pyFormat5 (h (employee_id ++ action_type))

/-- `badge_id` generated by `provision_badge`
(`facilities_mcp/function_app.py` line 42):
`f"BDG-\x7bhash(f'\x7bemployee_name\x7d\x7bbuilding\x7d') % 100000:05d\x7d"`. -/
def badge_id_of (h : String → Int) (employee_name : String)
    (building : String) : String :=
  "BDG-" ++ pyFormat5 (h (employee_name ++ building))

/-- `ticket_id` generated by `provision_laptop`
(`it_provision_mcp/function_app.py` line 41):
`f"RITM-\x7bhash(f'\x7bemployee_name\x7d\x7blaptop_model\x7d') % 100000:05d\x7d"`. -/
def ticket_id_of (h : String → Int) (employee_name : String)
    (laptop_model : String) : String :=
  "RITM-" ++ pyFormat5 (h (employee_name ++ laptop_model))

/-- A concrete stand-in string hash (CPython's salted `hash` is
process-specific; the claims below that use it hold for every choice). -/
def strHashModel (s : String) : Int :=
  s.data.foldl (fun a c => a * 31 + (c.toNat : Int)) 0

/-- The `ToolResponse` envelope of `shared/models.py` (the wall-clock
`timestamp` field is omitted: it is set from `datetime.now` outside any
claim's scope). -/
structure ToolResponse where
  success : Bool
  action : String
  details : Value
  summary : String
deriving Repr

/-- `success_response` of `shared/models.py`. -/
def success_response (action : String) (details : Value)
    (summary : String) : ToolResponse :=
  ⟨true, action, details, summary⟩

/-- `error_response` of `shared/models.py`: `success=False` and an
`\x7berror, context\x7d` details dict. -/
def error_response (action : String) (error_message : String)
    (context : String) : ToolResponse :=
  ⟨false, action,
   .dict [("error", .str error_message), ("context", .str context)],
   "Error during " ++ action ++ ": " ++ error_message⟩

/-- Shallow embedding of the `request_approval` tool
(`approval_mcp/function_app.py` lines 38–78).  The `details` dict guards
the empty chain (`approver_chain[0] if approver_chain else None`), but
the summary f-string indexes `approver_chain[0]` unguarded, so an empty
chain raises `IndexError` inside the `try` and the handler returns
`error_response("Request Approval", str(exc), "Approval Engine")`.
(The Python summary wraps the action type in single quotes; the quotes
are elided here.) -/
def request_approval (h : String → Int) (action_type : String)
    (employee_id : String) (employee_name : String)
    (approver_chain : List String) (sla_hours : Nat)
    (context : String) (escalation_rules : String) : ToolResponse :=
  let approval_id := approval_id_of h employee_id action_type
  let details := Value.dict
    [("approval_id", .str approval_id),
     ("action_type", .str action_type),
     ("employee_id", .str employee_id),
     ("employee_name", .str employee_name),
     ("approver_chain", .list (approver_chain.map Value.str)),
     ("current_approver",
      match approver_chain.head? with
      | some a => .str a
      | none => .null),
     ("sla_hours", .num sla_hours),
     ("escalation_rules", .str escalation_rules),
     ("context", .str context),
     ("status", .str ("pending"))]
  match approver_chain.head? with
  | some a0 =>
    success_response ("Approval Requested") details
      ("Approval request " ++ approval_id ++ " created for " ++ action_type
        ++ " regarding " ++ employee_name ++ ". Awaiting response from "
        ++ a0 ++ " (SLA: " ++ toString sla_hours ++ "h).")
  | none =>
    error_response ("Request Approval") ("list index out of range")
      ("Approval Engine")

/-- Shallow embedding of the `check_approval_status` tool
(`approval_mcp/function_app.py` lines 81–102): it builds a fixed
`details` dict — status `"pending"`, approver `manager@contoso.com`,
hard-coded timestamps, `escalation_count` 0 — whatever the instance's
actual state is; only the echoed `approval_id` and summary vary. -/
def check_approval_status (approval_id : String) : ToolResponse :=
  success_response ("Approval Status Retrieved")
    (.dict [("approval_id", .str approval_id),
            ("status", .str ("pending")),
            ("current_approver", .str ("manager@contoso.com")),
            ("created_at", .str ("2026-02-14T10:00:00Z")),
            ("sla_deadline", .str ("2026-02-15T10:00:00Z")),
            ("escalation_count", .num 0)])
    ("Approval " ++ approval_id ++ " is currently pending.")

/-- C1: every orchestration body in the repository is embedded above as a
pure function of the instance input, the instance start time, and the
recorded history of completions — it reads no real clock, draws no
randomness and performs no direct I/O (virtual time comes only from the
engine's recorded timer fire-ats) — so two replays of the same history
from empty state produce identical decision sequences. -/
theorem C1_replay_determinism :
    (∀ (i : ApprovalInput) (s : Nat) (a b : List Completion), a = b →
        approval_flow_orchestrator i s a = approval_flow_orchestrator i s b)
    ∧ (∀ (x : String) (s : Nat) (a b : List Completion), a = b →
        badge_provision_orchestrator x s a = badge_provision_orchestrator x s b)
    ∧ (∀ (x : String) (s : Nat) (a b : List Completion), a = b →
        laptop_provision_orchestrator x s a = laptop_provision_orchestrator x s b)
    ∧ (∀ (x : String) (s : Nat) (a b : List Completion), a = b →
        asset_return_orchestrator x s a = asset_return_orchestrator x s b)
    ∧ (∀ (x : String) (s : Nat) (a b : List Completion), a = b →
        background_check_orchestrator x s a = background_check_orchestrator x s b)
    ∧ (∀ (x : String) (s : Nat) (a b : List Completion), a = b →
        onedrive_transfer_orchestrator x s a = onedrive_transfer_orchestrator x s b)
    ∧ (∀ (x : String) (s : Nat) (a b : List Completion), a = b →
        final_paycheck_orchestrator x s a = final_paycheck_orchestrator x s b)
    ∧ (∀ (x : String) (s : Nat) (a b : List Completion), a = b →
        benefits_termination_orchestrator x s a = benefits_termination_orchestrator x s b) :=
  ⟨fun _ _ _ _ e => by rw [e], fun _ _ _ _ e => by rw [e],
   fun _ _ _ _ e => by rw [e], fun _ _ _ _ e => by rw [e],
   fun _ _ _ _ e => by rw [e], fun _ _ _ _ e => by rw [e],
   fun _ _ _ _ e => by rw [e], fun _ _ _ _ e => by rw [e]⟩

/-- Witness for C1 at a concrete input and history. -/
theorem C1_witness :
    ([] : List Completion) = ([] : List Completion)
    ∧ approval_flow_orchestrator ⟨"APR-1", ["alice"], 24⟩ 0 [] =
        approval_flow_orchestrator ⟨"APR-1", ["alice"], 24⟩ 0 [] :=
  ⟨rfl, C1_replay_determinism.1 ⟨"APR-1", ["alice"], 24⟩ 0 [] [] rfl⟩

/-- C2: chain `[alice, bob]`, SLA 24h per hop.  When the first 24h
deadline wins the race (and the three activities complete with any
results), the parent schedules exactly one sub-orchestration of the same
workflow type with the remaining chain `[bob]`; once the sub-orchestration
completes, its result is propagated as the parent's result; and the child
instance — whose own 24h deadline (`timer 2880`, i.e. the second 24h)
also passes with no event — completes with terminal status `timed_out`. -/
theorem C2_escalation_scenario :
    ∀ (v1 v2 v3 r : Value),
      (approval_flow_orchestrator ⟨"APR-1", ["alice", "bob"], 24⟩ 0
          [.activityDone v1, .activityDone v2, .raceTimer, .activityDone v3] =
        ([.activity ("store_approval_request")
            (.dict [("approval_id", .str ("APR-1")),
                    ("approver_chain", .list [.str ("alice"), .str ("bob")]),
                    ("sla_hours", .num 24)]),
          .activity ("send_approval_notification")
            (.dict [("approval_id", .str ("APR-1")), ("approver", .str ("alice"))]),
          .waitEvent ("ApprovalResponse"),
          .timer 1440,
          .activity ("escalate_to_next_approver")
            (.dict [("approval_id", .str ("APR-1")), ("next_approver", .str ("bob"))]),
          .subOrch ("approval_flow_orchestrator") ["bob"] ("APR-1") 24], .pending))
      ∧ countSubOrch (approval_flow_orchestrator ⟨"APR-1", ["alice", "bob"], 24⟩ 0
          [.activityDone v1, .activityDone v2, .raceTimer, .activityDone v3]).1 = 1
      ∧ (approval_flow_orchestrator ⟨"APR-1", ["alice", "bob"], 24⟩ 0
          [.activityDone v1, .activityDone v2, .raceTimer, .activityDone v3,
           .subDone r]).2 = .done r
      ∧ (approval_flow_orchestrator ⟨"APR-1", ["bob"], 24⟩ 1440
          [.activityDone v1, .activityDone v2, .raceTimer, .activityDone v3]).2 =
          .done (.dict [("status", .str ("timed_out")), ("approval_id", .str ("APR-1"))])
      ∧ (approval_flow_orchestrator ⟨"APR-1", ["bob"], 24⟩ 1440
          [.activityDone v1, .activityDone v2, .raceTimer, .activityDone v3]).1.filterMap
          (fun d => match d with | Decision.timer t => some t | _ => none) = [2880] := by
  intro v1 v2 v3 r
  exact ⟨rfl, rfl, rfl, rfl, rfl⟩

/-- C3: with an `ApprovalResponse` event carrying
`decision: approved, approver: alice` winning the race, the orchestrator
cancels the pending SLA timer (never fires it), calls `record_decision`
with that decision, completes with status `approved`, and the timeout
branch (escalation / sub-orchestration / timed-out recording) is never
taken — the full decision list is exactly the one shown. -/
theorem C3_approved_event_scenario :
    ∀ (v1 v2 v3 : Value),
      (approval_flow_orchestrator ⟨"APR-1", ["alice", "bob"], 24⟩ 0
          [.activityDone v1, .activityDone v2,
           .raceEvent (.dict [("decision", .str ("approved")),
                              ("approver", .str ("alice"))]),
           .activityDone v3] =
        ([.activity ("store_approval_request")
            (.dict [("approval_id", .str ("APR-1")),
                    ("approver_chain", .list [.str ("alice"), .str ("bob")]),
                    ("sla_hours", .num 24)]),
          .activity ("send_approval_notification")
            (.dict [("approval_id", .str ("APR-1")), ("approver", .str ("alice"))]),
          .waitEvent ("ApprovalResponse"),
          .timer 1440,
          .cancelTimer 1440,
          .activity ("record_decision")
            (.dict [("approval_id", .str ("APR-1")),
                    ("decision", .str ("approved")),
                    ("approver", .str ("alice")),
                    ("comments", .str (""))])],
         .done (.dict [("status", .str ("approved")), ("approval_id", .str ("APR-1"))])))
      ∧ countSubOrch (approval_flow_orchestrator ⟨"APR-1", ["alice", "bob"], 24⟩ 0
          [.activityDone v1, .activityDone v2,
           .raceEvent (.dict [("decision", .str ("approved")),
                              ("approver", .str ("alice"))]),
           .activityDone v3]).1 = 0 := by
  intro v1 v2 v3
  exact ⟨rfl, rfl⟩

/-- C6 counterexample: two distinct `(employee_id, action_type)` pairs
whose concatenations coincide receive the same generated id — for the
modelled hash here, and (see the amended theorem) for every hash. -/
theorem C6_counterexample :
    (("ab", "c") : String × String) ≠ (("a", "bc") : String × String)
    ∧ approval_id_of strHashModel ("ab") ("c") = approval_id_of strHashModel ("a") ("bc")
    ∧ badge_id_of strHashModel ("ab") ("c") = badge_id_of strHashModel ("a") ("bc")
    ∧ ticket_id_of strHashModel ("ab") ("c") = ticket_id_of strHashModel ("a") ("bc") :=
  ⟨by decide, rfl, rfl, rfl⟩

/-- C6 amended: the generated identifiers are not globally unique — each
depends on its two inputs only through their concatenation (then hashed
mod 100000), so distinct pairs with equal concatenation always collide,
for every interpreter hash function. -/
theorem C6_amended_ids_not_unique :
    ∀ (h : String → Int) (a b c d : String),
      (a ++ b = c ++ d → approval_id_of h a b = approval_id_of h c d)
      ∧ (a ++ b = c ++ d → badge_id_of h a b = badge_id_of h c d)
      ∧ (a ++ b = c ++ d → ticket_id_of h a b = ticket_id_of h c d) := by
  intro h a b c d
  refine ⟨fun e => ?_, fun e => ?_, fun e => ?_⟩
  · simp only [approval_id_of, e]
  · simp only [badge_id_of, e]
  · simp only [ticket_id_of, e]

/-- Witness for the amended C6 theorem at concrete colliding inputs. -/
theorem C6_witness :
    ("ab" ++ "c" = "a" ++ "bc")
    ∧ approval_id_of strHashModel ("ab") ("c") = approval_id_of strHashModel ("a") ("bc") :=
  ⟨rfl, (C6_amended_ids_not_unique strHashModel ("ab") ("c") ("a") ("bc")).1 rfl⟩

/-- C7 counterexample: the status query returns the fixed status
`"pending"` with no error classification and no history position for a
concrete instance id (the function's output never reflects a Failed
state), identically to any other id. -/
theorem C7_counterexample :
    (check_approval_status ("APR-00001")).details.get ("status") = some (.str ("pending"))
    ∧ (check_approval_status ("APR-00001")).details.get ("error") = none
    ∧ (check_approval_status ("APR-00001")).details.get ("last_completed_position") = none
    ∧ (check_approval_status ("APR-00001")).details.get ("status") =
        (check_approval_status ("APR-99999")).details.get ("status") :=
  ⟨rfl, rfl, rfl, rfl⟩

/-- C7 amended: `check_approval_status` returns a generic constant
snapshot for every instance — status always `"pending"`, a fixed
approver, and no error classification or last-completed history
position — so a Failed instance is reported exactly like any other. -/
theorem C7_amended_constant_status :
    ∀ (a b : String),
      (check_approval_status a).details.get ("status") = some (.str ("pending"))
      ∧ (check_approval_status a).details.get ("error") = none
      ∧ (check_approval_status a).details.get ("last_completed_position") = none
      ∧ (check_approval_status a).details.get ("current_approver") =
          (check_approval_status b).details.get ("current_approver")
      ∧ (check_approval_status a).details.get ("escalation_count") =
          (check_approval_status b).details.get ("escalation_count")
      ∧ (check_approval_status a).success = true := by
  intro a b
  exact ⟨rfl, rfl, rfl, rfl, rfl, rfl⟩

/-- C9: calling `request_approval` with an empty approver chain returns
the error envelope (`success = false`) — the guarded `current_approver`
does not save the summary f-string's unguarded `approver_chain[0]`,
whose IndexError the handler converts into `error_response`. -/
theorem C9_empty_chain_error :
    ∀ (h : String → Int) (a e n c esc : String) (sla : Nat),
      request_approval h a e n [] sla c esc =
        error_response ("Request Approval") ("list index out of range")
          ("Approval Engine")
      ∧ (request_approval h a e n [] sla c esc).success = false := by
  intro h a e n c esc sla
  exact ⟨rfl, rfl⟩

/-- C10: the COBRA timeline — notice, a timer exactly 44 days out,
reminder, then a race of `CobraElectionResponse` against a deadline a
further 16 days out (60 days after the notice in total); the deadline
winning yields `cobra = "election_expired"`, an election event yields a
cancellation of the deadline timer and the event payload as the `cobra`
result. -/
theorem C10_cobra_timeline :
    ∀ (e : String) (s : Nat) (v1 v2 p : Value),
      (benefits_termination_orchestrator e s
          [.activityDone v1, .timerFired, .activityDone v2, .raceTimer] =
        ([.activity ("send_cobra_notice") (.dict [("employee_id", .str e)]),
          .timer (s + 44 * day),
          .activity ("send_cobra_reminder") (.dict [("employee_id", .str e)]),
          .waitEvent ("CobraElectionResponse"),
          .timer (s + 44 * day + 16 * day)],
         .done (.dict [("employee_id", .str e),
                       ("cobra", .str ("election_expired"))])))
      ∧ (benefits_termination_orchestrator e s
          [.activityDone v1, .timerFired, .activityDone v2, .raceEvent p] =
        ([.activity ("send_cobra_notice") (.dict [("employee_id", .str e)]),
          .timer (s + 44 * day),
          .activity ("send_cobra_reminder") (.dict [("employee_id", .str e)]),
          .waitEvent ("CobraElectionResponse"),
          .timer (s + 44 * day + 16 * day),
          .cancelTimer (s + 44 * day + 16 * day)],
         .done (.dict [("employee_id", .str e), ("cobra", p)])))
      ∧ s + 44 * day + 16 * day = s + 60 * day := by
  intro e s v1 v2 p
  refine ⟨rfl, rfl, by omega⟩

/-- Index lemma for `strictTails`: level `i` of the escalation is the
chain with `i + 1` approvers dropped — one shorter per level. -/
theorem strictTails_get? :
    ∀ (c : List String) (i : Nat), i + 1 < c.length →
      (strictTails c).get? i = some (c.drop (i + 1)) := by
  intro c
  induction c with
  | nil => intro i h; simp at h
  | cons a t ih =>
    intro i h
    cases t with
    | nil => simp at h
    | cons b r =>
      cases i with
      | zero => simp [strictTails]
      | succ j =>
        have hj : j + 1 < (b :: r).length := by
          simp only [List.length_cons] at h ⊢
          omega
        have := ih j hj
        simp only [strictTails, List.get?]
        exact this

/-- Unfolding of the all-timeout escalation tree on a singleton chain. -/
theorem escalTree_single (aid : String) (sla s : Nat) (a : String) :
    escalationAllTimeout aid sla s [a] =
      ([Decision.activity ("store_approval_request")
          (ApprovalInput.toValue ⟨aid, [a], sla⟩),
        Decision.activity ("send_approval_notification")
          (.dict [("approval_id", .str aid), ("approver", .str a)]),
        Decision.waitEvent ("ApprovalResponse"),
        Decision.timer (s + sla * 60),
        Decision.activity ("record_decision")
          (.dict [("approval_id", .str aid), ("decision", .str ("timed_out"))])],
       .done (.dict [("status", .str ("timed_out")), ("approval_id", .str aid)])) := rfl

/-- Unfolding of the all-timeout escalation tree on a chain of length at
least two: the parent's six decisions (ending in the sub-orchestration
with the chain's tail) followed by the child subtree's decisions, and
the child's outcome propagated. -/
theorem escalTree_cons (aid : String) (sla s : Nat) (a b : String) (r : List String) :
    escalationAllTimeout aid sla s (a :: b :: r) =
      (Decision.activity ("store_approval_request")
          (ApprovalInput.toValue ⟨aid, a :: b :: r, sla⟩)
        :: Decision.activity ("send_approval_notification")
          (.dict [("approval_id", .str aid), ("approver", .str a)])
        :: Decision.waitEvent ("ApprovalResponse")
        :: Decision.timer (s + sla * 60)
        :: Decision.activity ("escalate_to_next_approver")
          (.dict [("approval_id", .str aid), ("next_approver", .str b)])
        :: Decision.subOrch ("approval_flow_orchestrator") (b :: r) aid sla
        :: (escalationAllTimeout aid sla (s + sla * 60) (b :: r)).1,
       .done (match (escalationAllTimeout aid sla (s + sla * 60) (b :: r)).2 with
              | .done v => v | _ => .null)) := rfl

/-- C4: for every nonempty approver chain, the all-timeout escalation of
`approval_flow_orchestrator` starts exactly `n - 1` sub-orchestrations
(at most `n`), reaches the terminal `timed_out` result, and the chains
of the started sub-orchestrations are exactly the strict tails of the
initial chain — each level's chain is one approver shorter, so the
recursion cannot cycle. -/
theorem C4_escalation_terminates :
    ∀ (aid : String) (sla s : Nat) (chain : List String), chain ≠ [] →
      countSubOrch (escalationAllTimeout aid sla s chain).1 = chain.length - 1
      ∧ countSubOrch (escalationAllTimeout aid sla s chain).1 ≤ chain.length
      ∧ (escalationAllTimeout aid sla s chain).2 =
          .done (.dict [("status", .str ("timed_out")), ("approval_id", .str aid)])
      ∧ subOrchChains (escalationAllTimeout aid sla s chain).1 = strictTails chain
      ∧ (∀ i, i + 1 < chain.length →
          (strictTails chain).get? i = some (chain.drop (i + 1))) := by
  intro aid sla s chain
  revert s
  induction chain with
  | nil => intro s h; exact absurd rfl h
  | cons a t ih =>
    intro s _
    cases t with
    | nil =>
      refine ⟨rfl, ?_, rfl, rfl, fun i hi => strictTails_get? [a] i hi⟩
      rw [escalTree_single]
      simp [countSubOrch]
    | cons b r =>
      obtain ⟨ih1, ih2, ih3, ih4, ih5⟩ := ih (s + sla * 60) (by simp)
      have h1 : countSubOrch (escalationAllTimeout aid sla s (a :: b :: r)).1 =
          countSubOrch (escalationAllTimeout aid sla (s + sla * 60) (b :: r)).1 + 1 := by
        rw [escalTree_cons]
        simp [countSubOrch]
      refine ⟨?_, ?_, ?_, ?_, fun i hi => strictTails_get? (a :: b :: r) i hi⟩
      · rw [h1, ih1]
        simp only [List.length_cons]
        omega
      · rw [h1, ih1]
        simp only [List.length_cons]
        omega
      · rw [escalTree_cons]
        simp only [ih3]
      · rw [escalTree_cons]
        simp only [subOrchChains, List.filterMap_cons] at ih4 ⊢
        rw [ih4]
        simp [strictTails]

/-- Witness for C4 on the chain `[alice, bob]`. -/
theorem C4_witness :
    (["alice", "bob"] : List String) ≠ []
    ∧ countSubOrch (escalationAllTimeout ("APR-1") 24 0 ["alice", "bob"]).1 = 1 :=
  ⟨by simp, (C4_escalation_terminates ("APR-1") 24 0 ["alice", "bob"] (by simp)).1⟩

/-- Any completed poll loop carries either a terminal poll status's
result or the loop's timeout result. -/
theorem pollLoop_done_cases (ps : PollSpec) (e : Nat) :
    ∀ (n : Nat) (hist : List Completion) (r : Value),
      (pollLoop ps e n hist).2 = .done r →
      (∃ st, ps.isTerminal st = true ∧ r = ps.terminalResult st) ∨ r = ps.timeoutResult := by
  intro n hist
  induction n, hist using pollLoop.induct ps e with
  | case1 now h => intro r hr; simp [pollLoop, h] at hr
  | case2 now h result h4 hterm hfin =>
    intro r hr
    simp [pollLoop, h, hterm, hfin] at hr
    exact Or.inl ⟨result, hterm, hr.symm⟩
  | case3 now h result hterm fname fargs hfin =>
    intro r hr
    simp [pollLoop, h, hterm, hfin] at hr
  | case4 now h result hterm fname fargs hfin result1 h4 =>
    intro r hr
    simp [pollLoop, h, hterm, hfin] at hr
    exact Or.inl ⟨result, hterm, hr.symm⟩
  | case5 now h result h4 hterm fname fargs hfin hne1 hne2 =>
    intro r hr
    cases h4 with
    | nil => exact absurd rfl hne1
    | cons c t =>
      cases c with
      | activityDone w => exact absurd rfl (hne2 w t)
      | timerFired => simp [pollLoop, h, hterm, hfin] at hr
      | eventReceived w => simp [pollLoop, h, hterm, hfin] at hr
      | subDone w => simp [pollLoop, h, hterm, hfin] at hr
      | raceEvent w => simp [pollLoop, h, hterm, hfin] at hr
      | raceTimer => simp [pollLoop, h, hterm, hfin] at hr
  | case6 now h result hnterm =>
    intro r hr
    simp [pollLoop, h, hnterm] at hr
  | case7 now h result hnterm next h2 ih =>
    intro r hr
    rw [pollLoop.eq_def] at hr
    simp [h, hnterm] at hr
    exact ih r hr
  | case8 now h result h4 hnterm hne1 hne2 =>
    intro r hr
    cases h4 with
    | nil => exact absurd rfl hne1
    | cons c t =>
      cases c with
      | timerFired => exact absurd rfl (hne2 t)
      | activityDone w => simp [pollLoop, h, hnterm] at hr
      | eventReceived w => simp [pollLoop, h, hnterm] at hr
      | subDone w => simp [pollLoop, h, hnterm] at hr
      | raceEvent w => simp [pollLoop, h, hnterm] at hr
      | raceTimer => simp [pollLoop, h, hnterm] at hr
  | case9 now t h hne1 hne2 =>
    intro r hr
    cases t with
    | nil => exact absurd rfl hne1
    | cons c u =>
      cases c with
      | activityDone w => exact absurd rfl (hne2 w u)
      | timerFired => simp [pollLoop, h] at hr
      | eventReceived w => simp [pollLoop, h] at hr
      | subDone w => simp [pollLoop, h] at hr
      | raceEvent w => simp [pollLoop, h] at hr
      | raceTimer => simp [pollLoop, h] at hr
  | case10 now t hn =>
    intro r hr
    simp [pollLoop, hn] at hr
    exact Or.inr hr.symm

/-- Every poll-loop decision trace alternates the poll activity with a
timer for exactly the next poll instant, optionally ending in the
finishing activity. -/
theorem pollLoop_altOK (ps : PollSpec) (e : Nat) :
    ∀ (n : Nat) (hist : List Completion),
      altOK ps n (pollLoop ps e n hist).1 = true := by
  intro n hist
  induction n, hist using pollLoop.induct ps e with
  | case1 now h => simp [pollLoop, h, altOK]
  | case2 now h result h4 hterm hfin => simp [pollLoop, h, hterm, hfin, altOK]
  | case3 now h result hterm fname fargs hfin =>
    simp [pollLoop, h, hterm, hfin, altOK]
  | case4 now h result hterm fname fargs hfin result1 h4 =>
    simp [pollLoop, h, hterm, hfin, altOK]
  | case5 now h result h4 hterm fname fargs hfin hne1 hne2 =>
    cases h4 with
    | nil => exact absurd rfl hne1
    | cons c t =>
      cases c with
      | activityDone w => exact absurd rfl (hne2 w t)
      | timerFired => simp [pollLoop, h, hterm, hfin, altOK]
      | eventReceived w => simp [pollLoop, h, hterm, hfin, altOK]
      | subDone w => simp [pollLoop, h, hterm, hfin, altOK]
      | raceEvent w => simp [pollLoop, h, hterm, hfin, altOK]
      | raceTimer => simp [pollLoop, h, hterm, hfin, altOK]
  | case6 now h result hnterm => simp [pollLoop, h, hnterm, altOK]
  | case7 now h result hnterm next h2 ih =>
    rw [pollLoop.eq_def]
    simp [h, hnterm]
    rw [altOK.eq_def]
    simp
    exact ih
  | case8 now h result h4 hnterm hne1 hne2 =>
    cases h4 with
    | nil => exact absurd rfl hne1
    | cons c t =>
      cases c with
      | timerFired => exact absurd rfl (hne2 t)
      | activityDone w => simp [pollLoop, h, hnterm, altOK]
      | eventReceived w => simp [pollLoop, h, hnterm, altOK]
      | subDone w => simp [pollLoop, h, hnterm, altOK]
      | raceEvent w => simp [pollLoop, h, hnterm, altOK]
      | raceTimer => simp [pollLoop, h, hnterm, altOK]
  | case9 now t h hne1 hne2 =>
    cases t with
    | nil => exact absurd rfl hne1
    | cons c u =>
      cases c with
      | activityDone w => exact absurd rfl (hne2 w u)
      | timerFired => simp [pollLoop, h, altOK]
      | eventReceived w => simp [pollLoop, h, altOK]
      | subDone w => simp [pollLoop, h, altOK]
      | raceEvent w => simp [pollLoop, h, altOK]
      | raceTimer => simp [pollLoop, h, altOK]
  | case10 now t hn => simp [pollLoop, hn, altOK]

/-- Once the virtual clock reaches the expiry horizon, the loop makes no
further decisions and completes normally with the timeout result. -/
theorem pollLoop_expired (ps : PollSpec) (e n : Nat) (hist : List Completion)
    (hn : ¬ n < e) : pollLoop ps e n hist = ([], .done ps.timeoutResult) := by
  rw [pollLoop.eq_def]
  simp [hn]

/-- C5: the three poll-until-terminal orchestrators (badge printing,
ServiceNow laptop ticket, background check).  For every run: (i) a
completed run's result is either determined by a terminal poll status
(badge: `printed ↦ activated`; laptop: `fulfilled`/`cancelled` echoed;
background check: `completed`/`failed` echoed) or is the `timed_out`
result; (ii) the loop's decision trace alternates the poll activity with
a timer for exactly the next poll interval; (iii) once the expiry
horizon is reached the loop completes normally (`done`, never `failed`)
with the `timed_out` result. -/
theorem C5_poll_until_terminal :
    (∀ (bid : String) (s : Nat) (hist : List Completion) (r : Value),
        (badge_provision_orchestrator bid s hist).2 = .done r →
        r = .dict [("badge_id", .str bid), ("result", .str ("activated"))]
        ∨ r = .dict [("badge_id", .str bid), ("result", .str ("timed_out"))])
    ∧ (∀ (bid : String) (s : Nat) (hist : List Completion),
        altOK (badgePollSpec bid) s
          ((badge_provision_orchestrator bid s hist).1.drop 1) = true)
    ∧ (∀ (bid : String) (e n : Nat) (hist : List Completion), ¬ n < e →
        pollLoop (badgePollSpec bid) e n hist =
          ([], .done (.dict [("badge_id", .str bid), ("result", .str ("timed_out"))])))
    ∧ (∀ (tid : String) (s : Nat) (hist : List Completion) (r : Value),
        (laptop_provision_orchestrator tid s hist).2 = .done r →
        (∃ st, (st.eqStr ("fulfilled") || st.eqStr ("cancelled")) = true ∧
          r = .dict [("ticket_id", .str tid), ("result", st)])
        ∨ r = .dict [("ticket_id", .str tid), ("result", .str ("timed_out"))])
    ∧ (∀ (tid : String) (s : Nat) (hist : List Completion),
        altOK (laptopPollSpec tid) s (laptop_provision_orchestrator tid s hist).1 = true)
    ∧ (∀ (tid : String) (e n : Nat) (hist : List Completion), ¬ n < e →
        pollLoop (laptopPollSpec tid) e n hist =
          ([], .done (.dict [("ticket_id", .str tid), ("result", .str ("timed_out"))])))
    ∧ (∀ (cid : String) (s : Nat) (hist : List Completion) (r : Value),
        (background_check_orchestrator cid s hist).2 = .done r →
        (∃ st, (st.eqStr ("completed") || st.eqStr ("failed")) = true ∧
          r = .dict [("check_id", .str cid), ("result", st)])
        ∨ r = .dict [("check_id", .str cid), ("result", .str ("timed_out"))])
    ∧ (∀ (cid : String) (s : Nat) (hist : List Completion),
        altOK (bgvPollSpec cid) s (background_check_orchestrator cid s hist).1 = true)
    ∧ (∀ (cid : String) (e n : Nat) (hist : List Completion), ¬ n < e →
        pollLoop (bgvPollSpec cid) e n hist =
          ([], .done (.dict [("check_id", .str cid), ("result", .str ("timed_out"))]))) := by
  refine ⟨?_, ?_, ?_, ?_, ?_, ?_, ?_, ?_, ?_⟩
  · intro bid s hist r hr
    cases hist with
    | nil => simp [badge_provision_orchestrator] at hr
    | cons c t =>
      cases c with
      | activityDone w =>
        simp only [badge_provision_orchestrator] at hr
        rcases pollLoop_done_cases (badgePollSpec bid) (s + 5 * day) s t r hr with
          ⟨st, hterm, hre⟩ | hre
        · exact Or.inl hre
        · exact Or.inr hre
      | timerFired => simp [badge_provision_orchestrator] at hr
      | eventReceived w => simp [badge_provision_orchestrator] at hr
      | subDone w => simp [badge_provision_orchestrator] at hr
      | raceEvent w => simp [badge_provision_orchestrator] at hr
      | raceTimer => simp [badge_provision_orchestrator] at hr
  · intro bid s hist
    cases hist with
    | nil => simp [badge_provision_orchestrator, altOK]
    | cons c t =>
      cases c with
      | activityDone w =>
        simp only [badge_provision_orchestrator, List.drop_succ_cons, List.drop_zero]
        exact pollLoop_altOK (badgePollSpec bid) (s + 5 * day) s t
      | timerFired => simp [badge_provision_orchestrator, altOK]
      | eventReceived w => simp [badge_provision_orchestrator, altOK]
      | subDone w => simp [badge_provision_orchestrator, altOK]
      | raceEvent w => simp [badge_provision_orchestrator, altOK]
      | raceTimer => simp [badge_provision_orchestrator, altOK]
  · intro bid e n hist hn
    exact pollLoop_expired (badgePollSpec bid) e n hist hn
  · intro tid s hist r hr
    rcases pollLoop_done_cases (laptopPollSpec tid) (s + 10 * day) s hist r hr with
      ⟨st, hterm, hre⟩ | hre
    · exact Or.inl ⟨st, hterm, hre⟩
    · exact Or.inr hre
  · intro tid s hist
    exact pollLoop_altOK (laptopPollSpec tid) (s + 10 * day) s hist
  · intro tid e n hist hn
    exact pollLoop_expired (laptopPollSpec tid) e n hist hn
  · intro cid s hist r hr
    rcases pollLoop_done_cases (bgvPollSpec cid) (s + 7 * day) s hist r hr with
      ⟨st, hterm, hre⟩ | hre
    · exact Or.inl ⟨st, hterm, hre⟩
    · exact Or.inr hre
  · intro cid s hist
    exact pollLoop_altOK (bgvPollSpec cid) (s + 7 * day) s hist
  · intro cid e n hist hn
    exact pollLoop_expired (bgvPollSpec cid) e n hist hn

/-- Witness for C5: the badge loop invoked at its expiry horizon makes
no decisions and completes normally with the `timed_out` result. -/
theorem C5_witness :
    ¬ (7200 : Nat) < 7200
    ∧ pollLoop (badgePollSpec ("BDG-1")) 7200 7200 [] =
        ([], .done (.dict [("badge_id", .str ("BDG-1")),
                           ("result", .str ("timed_out"))])) :=
  ⟨by omega, C5_poll_until_terminal.2.2.1 ("BDG-1") 7200 7200 [] (by omega)⟩

/-- C8: `final_paycheck_orchestrator` schedules `schedule_disbursement`
only when the `PayrollApproval` event wins the race against the 48-hour
deadline with `decision = "approved"`; if the deadline wins the run
completes with status `approval_timed_out`, and an event with any other
decision completes with status `rejected` — in both cases without a
disbursement decision. -/
theorem C8_disbursement_requires_approval :
    (∀ (e : String) (s : Nat) (hist : List Completion) (a : Value),
        Decision.activity ("schedule_disbursement") a ∈
          (final_paycheck_orchestrator e s hist).1 →
        ∃ c v p rest, hist = .activityDone c :: .activityDone v :: .raceEvent p :: rest
          ∧ (p.getNull ("decision")).eqStr ("approved") = true)
    ∧ (∀ (e : String) (s : Nat) (c v : Value) (rest : List Completion),
        (final_paycheck_orchestrator e s
            (.activityDone c :: .activityDone v :: .raceTimer :: rest)).2 =
          .done (.dict [("employee_id", .str e), ("status", .str ("approval_timed_out"))])
        ∧ ∀ (a : Value), Decision.activity ("schedule_disbursement") a ∉
            (final_paycheck_orchestrator e s
              (.activityDone c :: .activityDone v :: .raceTimer :: rest)).1)
    ∧ (∀ (e : String) (s : Nat) (c v p : Value) (rest : List Completion),
        p.isDict = true → (p.getNull ("decision")).eqStr ("approved") = false →
        (final_paycheck_orchestrator e s
            (.activityDone c :: .activityDone v :: .raceEvent p :: rest)).2 =
          .done (.dict [("employee_id", .str e), ("status", .str ("rejected"))])
        ∧ ∀ (a : Value), Decision.activity ("schedule_disbursement") a ∉
            (final_paycheck_orchestrator e s
              (.activityDone c :: .activityDone v :: .raceEvent p :: rest)).1) := by
  refine ⟨?_, ?_, ?_⟩
  · intro e s hist a hm
    cases hist with
    | nil => simp [final_paycheck_orchestrator] at hm
    | cons c1 t1 =>
      cases c1 with
      | activityDone c =>
        cases t1 with
        | nil => simp [final_paycheck_orchestrator] at hm
        | cons c2 t2 =>
          cases c2 with
          | activityDone v =>
            cases t2 with
            | nil => simp [final_paycheck_orchestrator] at hm
            | cons c3 t3 =>
              cases c3 with
              | raceTimer => simp [final_paycheck_orchestrator] at hm
              | raceEvent p =>
                by_cases hd : p.isDict = true
                · by_cases ha : (p.getNull ("decision")).eqStr ("approved") = true
                  · exact ⟨c, v, p, t3, rfl, ha⟩
                  · simp [final_paycheck_orchestrator, hd, ha] at hm
                · simp [final_paycheck_orchestrator, hd] at hm
              | activityDone w => simp [final_paycheck_orchestrator] at hm
              | timerFired => simp [final_paycheck_orchestrator] at hm
              | eventReceived w => simp [final_paycheck_orchestrator] at hm
              | subDone w => simp [final_paycheck_orchestrator] at hm
          | timerFired => simp [final_paycheck_orchestrator] at hm
          | eventReceived w => simp [final_paycheck_orchestrator] at hm
          | subDone w => simp [final_paycheck_orchestrator] at hm
          | raceEvent w => simp [final_paycheck_orchestrator] at hm
          | raceTimer => simp [final_paycheck_orchestrator] at hm
      | timerFired => simp [final_paycheck_orchestrator] at hm
      | eventReceived w => simp [final_paycheck_orchestrator] at hm
      | subDone w => simp [final_paycheck_orchestrator] at hm
      | raceEvent w => simp [final_paycheck_orchestrator] at hm
      | raceTimer => simp [final_paycheck_orchestrator] at hm
  · intro e s c v rest
    refine ⟨rfl, fun a hm => ?_⟩
    simp [final_paycheck_orchestrator] at hm
  · intro e s c v p rest hd ha
    constructor
    · simp [final_paycheck_orchestrator, hd, ha]
    · intro a hm
      simp [final_paycheck_orchestrator, hd, ha] at hm

/-- Witness for C8: a concrete rejected payroll approval — the event wins
with `decision = "rejected"`, the run completes with status `rejected`. -/
theorem C8_witness :
    (Value.dict [("decision", .str ("rejected"))]).isDict = true
    ∧ ((Value.dict [("decision", .str ("rejected"))]).getNull ("decision")).eqStr
        ("approved") = false
    ∧ (final_paycheck_orchestrator ("E-1") 0
        [.activityDone (.num 1), .activityDone (.str ("ok")),
         .raceEvent (.dict [("decision", .str ("rejected"))])]).2 =
      .done (.dict [("employee_id", .str ("E-1")), ("status", .str ("rejected"))]) :=
  ⟨rfl, rfl,
   (C8_disbursement_requires_approval.2.2 ("E-1") 0 (.num 1) (.str ("ok"))
     (.dict [("decision", .str ("rejected"))]) [] rfl rfl).1⟩
